import Mathlib

/-!
Verification development for a mask-detection web service (`app.py`).

The service is a single Flask endpoint: `POST /detect` takes a JSON body
with a base64 `image` field, decodes and preprocesses the image
(RGB conversion, resize to 224x224, scale to [0,1], batch dimension),
runs a classifier, and answers with the top label and confidence.
On startup it provisions a self-signed TLS certificate if one is missing.

The embedding below is shallow: the application's own logic
(the handler's control flow, indexing, argmax/max selection, the
arithmetic of the preprocessing, the certificate provisioning control
flow and file writes) is translated into executable Lean definitions.
External libraries (Flask JSON parsing, `base64.b64decode`, PIL image
decode/convert/resize, the TensorFlow model's forward pass, the RSA key
generator, the clock and the serial-number generator) are opaque
dependencies of the program; they enter as parameters (`Lib`, `GenEnv`)
and their documented contracts appear as hypotheses of the theorems.
Python floats are modelled as rationals; Python exceptions as
`Except String`; the filesystem as an association list from paths to
file contents, where a write shadows older entries.
-/

set_option linter.unusedVariables false

/-! ### JSON values and request bodies -/

/-- A parsed JSON value.  Numbers are modelled as rationals, objects as
association lists of key/value pairs (the parser yields unique keys). -/
inductive Json where
  | null : Json
  | bool (b : Bool) : Json
  | num (q : ℚ) : Json
  | str (s : String) : Json
  | arr (elems : List Json) : Json
  | obj (fields : List (String × Json)) : Json

/-- The outcome of Flask's request-body parsing as seen by the handler:
either `request.get_json()` raises (malformed body, wrong content type),
carrying the exception text, or it returns a parsed JSON value. -/
inductive ReqBody where
  | malformed (msg : String) : ReqBody
  | json (j : Json) : ReqBody

/-- `request.get_json()`: yields the parsed value or raises. -/
def getJson : ReqBody → Except String Json
  | .malformed msg => .error msg
  | .json j => .ok j

/-- Python subscription `data[k]` on a parsed JSON value: a key lookup on
a dict (raising a key error when absent), a type error on anything else. -/
def jsonGetItem (j : Json) (k : String) : Except String Json :=
  match j with
  | .obj fields =>
      match fields.lookup k with
      | some v => .ok v
      | none => .error ("KeyError: " ++ k)
  | _ => .error "TypeError: object is not subscriptable"

/-! ### Images and tensors -/

/-- Raw bytes (a base64-decoded payload). -/
abbrev Bytes := List Nat

/-- A decoded PIL image: a color mode and pixel data laid out as
rows x columns x channels, with 8-bit channel values. -/
structure PILImage where
  mode : String
  px : List (List (List Nat))
deriving DecidableEq, Repr

/-- A rank-3 float array (height x width x channels). -/
abbrev Tensor3 := List (List (List ℚ))

/-- A rank-4 float array (batch x height x width x channels). -/
abbrev Tensor4 := List Tensor3

/-- `img_to_array`: the image's pixel data as a float array, one float
per channel value, same layout. -/
def img_to_array (img : PILImage) : Tensor3 :=
  img.px.map (fun row => row.map (fun p => p.map (fun (v : ℕ) => (v : ℚ))))

/-- Elementwise division of a rank-3 array by a scalar (`arr / 255.0`). -/
def tensorDiv (t : Tensor3) (d : ℚ) : Tensor3 :=
  t.map (fun row => row.map (fun p => p.map (fun v => v / d)))

/-- `np.expand_dims(arr, axis=0)`: prepend a batch dimension of size 1. -/
def npExpandDims0 (t : Tensor3) : Tensor4 := [t]

/-- The grid shape of a rank-3 array: `h` rows, each of `w` pixels, each
of `c` channels. -/
def isGrid3 (px : List (List (List Nat))) (h w c : Nat) : Prop :=
  px.length = h ∧ ∀ row ∈ px, row.length = w ∧ ∀ p ∈ row, p.length = c

/-- The grid shape of a rank-3 float tensor. -/
def isGridQ (t : Tensor3) (h w c : Nat) : Prop :=
  t.length = h ∧ ∀ row ∈ t, row.length = w ∧ ∀ p ∈ row, p.length = c

/-! ### NumPy reductions and Python indexing -/

/-- Left fold of binary `max` over a list, seeded with `a`. -/
def maxD (a : ℚ) : List ℚ → ℚ
  | [] => a
  | x :: xs => maxD (max a x) xs

/-- Index of the first occurrence of `m` in a list (total; returns the
length when `m` is absent, which never happens at its use site). -/
def idxOfMax (m : ℚ) : List ℚ → Nat
  | [] => 0
  | x :: xs => if x = m then 0 else idxOfMax m xs + 1

/-- `np.argmax`: index of the first occurrence of the maximum value;
raises on an empty vector. -/
def npArgmax : List ℚ → Except String Nat
  | [] => .error "ValueError: attempt to get argmax of an empty sequence"
  | x :: xs => .ok (idxOfMax (maxD x xs) (x :: xs))

/-- `np.max`: the maximum value; raises on an empty vector. -/
def npMax : List ℚ → Except String ℚ
  | [] => .error "ValueError: zero-size array to reduction operation maximum"
  | x :: xs => .ok (maxD x xs)

/-- Python sequence indexing `l[i]`: raises an index error out of range. -/
def pyGetIdx {α : Type} (l : List α) (i : Nat) : Except String α :=
  match l.get? i with
  | some a => .ok a
  | none => .error "IndexError: index out of range"

/-! ### External libraries -/

/-- The opaque external dependencies the handler calls: base64 decoding,
PIL image decoding / mode conversion / resizing, and the loaded model's
forward pass (`model.predict`, returning one probability vector per
batch element). -/
structure Lib where
  b64decode : String → Except String Bytes
  imageOpen : Bytes → Except String PILImage
  convert : PILImage → String → PILImage
  resize : PILImage → Nat → Nat → PILImage
  predict : Tensor4 → List (List ℚ)

/-- `base64.b64decode(image_data)` applied to a JSON value: only a
string is an acceptable argument; anything else raises a type error. -/
def b64decodeJson (lib : Lib) (j : Json) : Except String Bytes :=
  match j with
  | .str s => lib.b64decode s
  | _ => .error "TypeError: argument should be a bytes-like object or ASCII string"

/-! ### The detect handler -/

/-- The label set: output index `i` of the model maps to `class_labels[i]`. -/
def class_labels : List String := ["mask", "no_mask"]

/-- The preprocessing pipeline (lines 86-92 of `app.py`): base64-decode,
decode bytes as an image, convert to RGB, resize to 224x224, convert to
a float array divided by 255.0, prepend a batch dimension. -/
def preprocess (lib : Lib) (image_data : Json) : Except String Tensor4 := do
  let image_bytes ← b64decodeJson lib image_data
  let image ← lib.imageOpen image_bytes
  let image := lib.convert image "RGB"
  let image := lib.resize image 224 224
  let img_array := tensorDiv (img_to_array image) 255
  pure (npExpandDims0 img_array)

/-- The body of the `try` block of `detect` (lines 82-104 of `app.py`):
parse the JSON body, take the `image` field, preprocess, run the model,
select argmax index, max confidence and the corresponding label.
Any raised exception surfaces as `Except.error` with the exception text. -/
def detectBody (lib : Lib) (req : ReqBody) : Except String (String × ℚ) := do
  let data ← getJson req
  let image_data ← jsonGetItem data "image"
  let img_array ← preprocess lib image_data
  let preds := lib.predict img_array
  let preds0 ← pyGetIdx preds 0
  let class_index ← npArgmax preds0
  let confidence ← npMax preds0
  let prediction ← pyGetIdx class_labels class_index
  pure (prediction, confidence)

/-- The success response body. -/
def successJson (prediction : String) (confidence : ℚ) : Json :=
  .obj [("status", .str "success"), ("prediction", .str prediction),
        ("confidence", .num confidence)]

/-- The error response body. -/
def errorJson (message : String) : Json :=
  .obj [("status", .str "error"), ("message", .str message)]

/-- `jsonify(...)`: an HTTP response with the default success status
code 200 and a JSON body. -/
def jsonify (body : Json) : Nat × Json := (200, body)

/-- The `detect` handler: the `try` body wrapped by the catch-all
`except Exception` clause, which converts any exception to the JSON
error envelope.  Both branches answer through `jsonify` with its
default success HTTP status. -/
def detect (lib : Lib) (req : ReqBody) : Nat × Json :=
  match detectBody lib req with
  | .ok (prediction, confidence) => jsonify (successJson prediction confidence)
  | .error e => jsonify (errorJson e)

/-- The status field of a response body. -/
def jsonStatus (j : Json) : Option Json :=
  match j with
  | .obj fields => fields.lookup "status"
  | _ => none

/-! ### Certificate provisioning -/

/-- A filesystem path. -/
abbrev FPath := String

/-- An RSA private key: the parameters the program passes to the
generator, plus an entropy tag distinguishing independently generated
keys. -/
structure RSAKey where
  keyId : Nat
  publicExponent : Nat
  keySize : Nat
deriving DecidableEq, Repr

/-- An X.509 distinguished name, with the attributes the program sets. -/
structure X509Name where
  country : String
  stateOrProvince : String
  locality : String
  organization : String
  commonName : String
deriving DecidableEq, Repr

/-- A built and signed X.509 certificate, recording every field the
builder chain of `generate_self_signed_cert` sets. -/
structure Cert where
  subject : X509Name
  issuer : X509Name
  publicKeyOf : RSAKey
  serialNumber : Nat
  notValidBefore : Nat
  notValidAfter : Nat
  sanDNS : List String
  signatureHash : String
  signingKey : RSAKey
deriving DecidableEq, Repr

/-- Contents of a file on disk: a serialized private key (with its
encoding, format and encryption mode), a PEM certificate, or anything
else. -/
inductive FileData where
  | keyPem (key : RSAKey) (encoding : String) (fmt : String) (encrypted : Bool)
  | certPem (cert : Cert)
  | raw (s : String)
deriving DecidableEq, Repr

/-- The filesystem: an association list from paths to contents; a write
prepends and thereby shadows any older entry for the same path. -/
abbrev FS := List (FPath × FileData)

/-- Write (create or overwrite) a file. -/
def fsWrite (fs : FS) (p : FPath) (d : FileData) : FS := (p, d) :: fs

/-- Read a file, if present. -/
def fsRead (fs : FS) (p : FPath) : Option FileData := fs.lookup p

/-- `os.path.exists`. -/
def fsExists (fs : FS) (p : FPath) : Bool := (fs.lookup p).isSome

/-- `timedelta(days=365)` in seconds. -/
def days365 : Nat := 365 * 86400

/-- The environment of one run of `generate_self_signed_cert`: what the
opaque external calls return (key-generator entropy, the random serial
number, the two successive `datetime.utcnow()` readings, in seconds)
and whether each fallible external step succeeds (the two file writes
and the build-and-sign step). -/
structure GenEnv where
  keyId : Nat
  serial : Nat
  t1 : Nat
  t2 : Nat
  keyWriteOk : Bool
  signOk : Bool
  certWriteOk : Bool
deriving DecidableEq, Repr

/-- `generate_self_signed_cert(cert_file, key_file)` (lines 37-66 of
`app.py`): generate a 2048-bit RSA key with public exponent 65537;
write it to `key_file` as unencrypted PEM in TraditionalOpenSSL format;
build a self-signed certificate (subject = issuer, common name
"localhost", SAN DNS "localhost", valid from the first clock reading to
the second clock reading plus 365 days) and sign it with SHA-256; write
it to `cert_file` as PEM.  Returns the propagated exception, if any,
together with the filesystem after the writes that did happen: an
exception is not caught, and nothing written is rolled back. -/
def generate_self_signed_cert (env : GenEnv) (cert_file key_file : FPath)
    (fs : FS) : Option String × FS :=
  let key : RSAKey := { keyId := env.keyId, publicExponent := 65537, keySize := 2048 }
  if env.keyWriteOk = false then (some "OSError: key write failed", fs)
  else
    let fs1 := fsWrite fs key_file (.keyPem key "PEM" "TraditionalOpenSSL" false)
    let subject : X509Name :=
      { country := "US", stateOrProvince := "California",
        locality := "San Francisco", organization := "My Company",
        commonName := "localhost" }
    let issuer := subject
    if env.signOk = false then (some "building or signing the certificate failed", fs1)
    else
      let cert : Cert :=
        { subject := subject, issuer := issuer, publicKeyOf := key,
          serialNumber := env.serial, notValidBefore := env.t1,
          notValidAfter := env.t2 + days365, sanDNS := ["localhost"],
          signatureHash := "SHA256", signingKey := key }
      if env.certWriteOk = false then (some "OSError: cert write failed", fs1)
      else (none, fsWrite fs1 cert_file (.certPem cert))

/-- The startup provisioning check (lines 69-70 of `app.py`): if
`cert.pem` or `key.pem` is missing, run `generate_self_signed_cert`;
otherwise do nothing. -/
def ensure_certificate (env : GenEnv) (fs : FS) : Option String × FS :=
  if !(fsExists fs "cert.pem") || !(fsExists fs "key.pem") then
    generate_self_signed_cert env "cert.pem" "key.pem" fs
  else (none, fs)

/-! ### Helper lemmas: max and argmax -/

theorem le_maxD (a : ℚ) (xs : List ℚ) : a ≤ maxD a xs := by
  induction xs generalizing a with
  | nil => exact le_refl a
  | cons x xs ih => exact le_trans (le_max_left a x) (ih (max a x))

theorem maxD_mem (a : ℚ) (xs : List ℚ) : maxD a xs = a ∨ maxD a xs ∈ xs := by
  induction xs generalizing a with
  | nil => exact Or.inl rfl
  | cons x xs ih =>
      rcases ih (max a x) with h | h
      · rcases max_choice a x with hm | hm
        · exact Or.inl (by rw [maxD, h, hm])
        · exact Or.inr (by rw [maxD, h, hm]; exact List.mem_cons_self x xs)
      · exact Or.inr (List.mem_cons_of_mem x h)

theorem le_maxD_of_mem {y : ℚ} {xs : List ℚ} (h : y ∈ xs) (a : ℚ) :
    y ≤ maxD a xs := by
  induction xs generalizing a with
  | nil => cases h
  | cons x xs ih =>
      rcases List.mem_cons.mp h with rfl | h
      · exact le_trans (le_max_right a y) (le_maxD (max a y) xs)
      · exact ih h (max a x)

theorem idxOfMax_lt_length {m : ℚ} {l : List ℚ} (h : m ∈ l) :
    idxOfMax m l < l.length := by
  induction l with
  | nil => cases h
  | cons x xs ih =>
      by_cases hx : x = m
      · simp [idxOfMax, hx]
      · rcases List.mem_cons.mp h with rfl | h
        · exact absurd rfl hx
        · simpa [idxOfMax, hx, Nat.succ_lt_succ_iff] using ih h

theorem get_idxOfMax {m : ℚ} {l : List ℚ} (h : m ∈ l) :
    l.get? (idxOfMax m l) = some m := by
  induction l with
  | nil => cases h
  | cons x xs ih =>
      by_cases hx : x = m
      · simp [idxOfMax, hx]
      · rcases List.mem_cons.mp h with rfl | h
        · exact absurd rfl hx
        · simpa [idxOfMax, hx] using ih h

theorem get_lt_idxOfMax {m : ℚ} {l : List ℚ} {j : Nat}
    (hj : j < idxOfMax m l) {v : ℚ} (hv : l.get? j = some v) : v ≠ m := by
  induction l generalizing j with
  | nil => simp at hv
  | cons x xs ih =>
      by_cases hx : x = m
      · simp [idxOfMax, hx] at hj
      · cases j with
        | zero =>
            simp at hv
            simpa [hv] using hx
        | succ j =>
            simp [idxOfMax, hx, Nat.succ_lt_succ_iff] at hj
            exact ih hj (by simpa using hv)

/-- Simp set unfolding the `Except` monad operations of the handler. -/
theorem except_bind_ok {α β : Type} (a : α) (f : α → Except String β) :
    (Except.ok a >>= f) = f a := rfl

theorem except_bind_error {α β : Type} (e : String) (f : α → Except String β) :
    ((Except.error e : Except String α) >>= f) = Except.error e := rfl

theorem except_map_ok {α β : Type} (a : α) (f : α → β) :
    (f <$> (Except.ok a : Except String α)) = Except.ok (f a) := rfl

theorem except_map_error {α β : Type} (e : String) (f : α → β) :
    (f <$> (Except.error e : Except String α)) = (Except.error e : Except String β) := rfl

/-! ### Reduction of the handler on the success pipeline -/

/-- If the body is an object whose `image` field is a string that
base64-decodes and image-decodes successfully, the handler reduces to
the model-output selection steps on the first predicted vector. -/
theorem detectBody_eq_of_pipeline (lib : Lib) (fields : List (String × Json))
    (s : String) (bs : Bytes) (img0 : PILImage) (p0 : List ℚ)
    (hlook : fields.lookup "image" = some (Json.str s))
    (hb64 : lib.b64decode s = Except.ok bs)
    (hopen : lib.imageOpen bs = Except.ok img0)
    (hp0 : (lib.predict (npExpandDims0 (tensorDiv (img_to_array
        (lib.resize (lib.convert img0 "RGB") 224 224)) 255))).get? 0 = some p0) :
    detectBody lib (.json (.obj fields)) =
      (do
        let class_index ← npArgmax p0
        let confidence ← npMax p0
        let prediction ← pyGetIdx class_labels class_index
        pure (prediction, confidence) : Except String (String × ℚ)) := by
  rw [List.get?_eq_getElem?] at hp0
  simp [detectBody, preprocess, getJson, jsonGetItem, hlook, b64decodeJson, hb64,
    hopen, pyGetIdx, hp0, except_bind_ok]

/-! ### Concrete instances used by the witnesses -/

/-- A concrete 2x2 grayscale image. -/
def imgCx : PILImage := { mode := "L", px := [[[7], [200]], [[30], [255]]] }

/-- A concrete instantiation of the external libraries: one base64
string decodes, one byte string is a valid image, mode conversion
replicates the first channel, resizing yields a constant grid of the
requested size, and the model returns the fixed vector [1, 0]. -/
def libCx : Lib where
  b64decode := fun s =>
    if s = "payload" then Except.ok [10, 20]
    else Except.error "binascii.Error: invalid base64-encoded string"
  imageOpen := fun bs =>
    if bs = [10, 20] then Except.ok imgCx
    else Except.error "UnidentifiedImageError: cannot identify image file"
  convert := fun img m =>
    { mode := m, px := img.px.map (fun row => row.map (fun p => List.replicate 3 (p.headD 0))) }
  resize := fun img w h =>
    { mode := img.mode, px := List.replicate h (List.replicate w (List.replicate 3 120)) }
  predict := fun _ => [[1, 0]]

/-! ### C1 -/

/-- C1: for a request whose JSON body is an object with an `image`
field holding a string that base64-decodes to decodable image bytes,
and whose model forward pass yields a probability vector over the
label set (one entry per label, each in [0,1]), `detect` answers with
the success status, a prediction among the two configured labels, and
a confidence in [0,1]. -/
theorem detect_success_valid_image (lib : Lib) (fields : List (String × Json))
    (s : String) (bs : Bytes) (img0 : PILImage) (p0 : List ℚ)
    (hlook : fields.lookup "image" = some (Json.str s))
    (hb64 : lib.b64decode s = Except.ok bs)
    (hopen : lib.imageOpen bs = Except.ok img0)
    (hp0 : (lib.predict (npExpandDims0 (tensorDiv (img_to_array
        (lib.resize (lib.convert img0 "RGB") 224 224)) 255))).get? 0 = some p0)
    (hlen : p0.length = class_labels.length)
    (hprob : ∀ q ∈ p0, 0 ≤ q ∧ q ≤ 1) :
    ∃ prediction confidence,
      detect lib (.json (.obj fields)) = (200, successJson prediction confidence) ∧
      (prediction = "mask" ∨ prediction = "no_mask") ∧
      0 ≤ confidence ∧ confidence ≤ 1 := by
  rcases p0 with _ | ⟨x, xs⟩
  · simp [class_labels] at hlen
  · have hred := detectBody_eq_of_pipeline lib fields s bs img0 (x :: xs) hlook hb64 hopen hp0
    have hmem : maxD x xs ∈ x :: xs := by
      rcases maxD_mem x xs with h | h
      · rw [h]; exact List.mem_cons_self x xs
      · exact List.mem_cons_of_mem x h
    have hlen2 : (x :: xs).length = 2 := by simpa [class_labels] using hlen
    have hi : idxOfMax (maxD x xs) (x :: xs) < 2 := hlen2 ▸ idxOfMax_lt_length hmem
    have hpm := hprob (maxD x xs) hmem
    have h01 : idxOfMax (maxD x xs) (x :: xs) = 0 ∨
        idxOfMax (maxD x xs) (x :: xs) = 1 := by omega
    rcases h01 with h0 | h0
    · refine ⟨"mask", maxD x xs, ?_, Or.inl rfl, hpm.1, hpm.2⟩
      simp [detect, hred, npArgmax, npMax, h0, pyGetIdx, class_labels,
        except_bind_ok, jsonify]
    · refine ⟨"no_mask", maxD x xs, ?_, Or.inr rfl, hpm.1, hpm.2⟩
      simp [detect, hred, npArgmax, npMax, h0, pyGetIdx, class_labels,
        except_bind_ok, jsonify]

/-- C1 witness: the concrete library and payload satisfy every
hypothesis, and the handler answers success with a label among the
two configured ones and a confidence in [0,1]. -/
theorem detect_success_valid_image_witness :
    ∃ prediction confidence,
      detect libCx (.json (.obj [("image", Json.str "payload")])) =
        (200, successJson prediction confidence) ∧
      (prediction = "mask" ∨ prediction = "no_mask") ∧
      0 ≤ confidence ∧ confidence ≤ 1 :=
  detect_success_valid_image libCx [("image", Json.str "payload")] "payload"
    [10, 20] imgCx [1, 0] (by rfl) (by rfl) (by rfl) (by rfl) (by rfl)
    (by decide)

/-! ### C2 -/

/-- C2: the handler is total and uniform: every exception raised in
the processing chain is converted at the handler boundary into the
JSON error envelope carrying the exception text, and both outcomes
are answered with the same success HTTP status code 200; no input
makes the handler propagate an exception. -/
theorem detect_error_envelope (lib : Lib) (req : ReqBody) :
    (∀ e, detectBody lib req = Except.error e →
      detect lib req = (200, errorJson e)) ∧
    ((∃ pc, detectBody lib req = Except.ok pc ∧
        detect lib req = (200, successJson pc.1 pc.2)) ∨
      (∃ e, detectBody lib req = Except.error e ∧
        detect lib req = (200, errorJson e))) := by
  constructor
  · intro e he
    simp [detect, he, jsonify]
  · cases h : detectBody lib req with
    | ok pc =>
        obtain ⟨p, c⟩ := pc
        exact Or.inl ⟨(p, c), rfl, by simp [detect, h, jsonify]⟩
    | error e =>
        exact Or.inr ⟨e, rfl, by simp [detect, h, jsonify]⟩

/-- C2 witness: a malformed body is answered with status 200 and the
error envelope carrying the parser's exception text. -/
theorem detect_error_envelope_witness :
    detect libCx (.malformed "400 Bad Request") = (200, errorJson "400 Bad Request") :=
  (detect_error_envelope libCx (.malformed "400 Bad Request")).1
    "400 Bad Request" (by rfl)

/-! ### C5 -/

/-- C5: a JSON object body without the `image` key makes the
subscription raise a key error, and the handler answers the JSON
error envelope. -/
theorem detect_missing_image_key (lib : Lib) (fields : List (String × Json))
    (hmiss : fields.lookup "image" = none) :
    detectBody lib (.json (.obj fields)) = Except.error ("KeyError: " ++ "image") ∧
    detect lib (.json (.obj fields)) = (200, errorJson ("KeyError: " ++ "image")) := by
  have h : detectBody lib (.json (.obj fields)) =
      Except.error ("KeyError: " ++ "image") := by
    simp [detectBody, getJson, jsonGetItem, hmiss, except_bind_ok, except_bind_error]
  exact ⟨h, by simp [detect, h, jsonify]⟩

/-- C5 witness: the empty object body yields the key-error envelope. -/
theorem detect_missing_image_key_witness :
    detectBody libCx (.json (.obj [])) = Except.error ("KeyError: " ++ "image") ∧
    detect libCx (.json (.obj [])) = (200, errorJson ("KeyError: " ++ "image")) :=
  detect_missing_image_key libCx [] (by rfl)

/-! ### C4 -/

/-- The maximum of a nonempty vector is one of its entries. -/
theorem maxD_mem_cons (x : ℚ) (xs : List ℚ) : maxD x xs ∈ x :: xs := by
  rcases maxD_mem x xs with h | h
  · rw [h]; exact List.mem_cons_self x xs
  · exact List.mem_cons_of_mem x h

/-- Every entry of a nonempty vector is bounded by its maximum. -/
theorem le_maxD_cons {y x : ℚ} {xs : List ℚ} (h : y ∈ x :: xs) :
    y ≤ maxD x xs := by
  rcases List.mem_cons.mp h with rfl | h
  · induction xs with
    | nil => exact le_refl y
    | cons z zs ih => exact le_trans (le_max_left y z) (le_maxD (max y z) zs)
  · exact le_maxD_of_mem h x

/-- Inversion of a successful run of the handler body: it exhibits the
whole chain of intermediate values the handler computed.  Every step
is a function, so the parsed body, the `image` field, the preprocessed
tensor, the forward-pass vector `p0` and the selected index are each
uniquely determined by `lib` and `req` through these equations; in
particular `p0` is the first row of `lib.predict` on the actually
preprocessed tensor, not an arbitrary vector. -/
theorem detectBody_ok_inv {lib : Lib} {req : ReqBody} {pred : String} {conf : ℚ}
    (h : detectBody lib req = Except.ok (pred, conf)) :
    ∃ data image_data img_array p0 i,
      getJson req = Except.ok data ∧
      jsonGetItem data "image" = Except.ok image_data ∧
      preprocess lib image_data = Except.ok img_array ∧
      pyGetIdx (lib.predict img_array) 0 = Except.ok p0 ∧
      npArgmax p0 = Except.ok i ∧ npMax p0 = Except.ok conf ∧
      pyGetIdx class_labels i = Except.ok pred := by
  simp only [detectBody] at h
  cases hd : getJson req <;> rw [hd] at h
  case error e => rw [except_bind_error] at h; cases h
  case ok data =>
  rw [except_bind_ok] at h
  cases hi : jsonGetItem data "image" <;> rw [hi] at h
  case error e => rw [except_bind_error] at h; cases h
  case ok image_data =>
  rw [except_bind_ok] at h
  cases hp : preprocess lib image_data <;> rw [hp] at h
  case error e => rw [except_bind_error] at h; cases h
  case ok img_array =>
  rw [except_bind_ok] at h
  cases h0 : pyGetIdx (lib.predict img_array) 0 <;> rw [h0] at h
  case error e => rw [except_bind_error] at h; cases h
  case ok preds0 =>
  rw [except_bind_ok] at h
  cases hA : npArgmax preds0 <;> rw [hA] at h
  case error e => rw [except_bind_error] at h; cases h
  case ok class_index =>
  rw [except_bind_ok] at h
  cases hM : npMax preds0 <;> rw [hM] at h
  case error e => rw [except_bind_error] at h; cases h
  case ok confidence =>
  rw [except_bind_ok] at h
  cases hL : pyGetIdx class_labels class_index <;> rw [hL] at h
  case error e => rw [except_bind_error] at h; cases h
  case ok prediction =>
  rw [except_bind_ok] at h
  have hpc : (prediction, confidence) = (pred, conf) := Except.ok.inj h
  rw [Prod.mk.injEq] at hpc
  exact ⟨data, image_data, img_array, preds0, class_index, rfl, hi, hp, h0,
    hA, hpc.2 ▸ hM, hpc.1 ▸ hL⟩

/-- C4: every success response selects, on the probability vector the
forward pass actually produced, the index of the maximum probability
with ties resolved to the lowest index, and the returned confidence is
exactly the probability value at that index (`np.max` agrees with the
value at the `np.argmax` index).  The vector `p0` is pinned to the run
by the chain of equations: it is the first row of `lib.predict`
applied to the tensor `preprocess` computed from the request's `image`
field — every step a function of `lib` and `req`. -/
theorem detect_argmax_confidence (lib : Lib) (req : ReqBody)
    (pred : String) (conf : ℚ)
    (h : detectBody lib req = Except.ok (pred, conf)) :
    ∃ data image_data img_array p0 i,
      getJson req = Except.ok data ∧
      jsonGetItem data "image" = Except.ok image_data ∧
      preprocess lib image_data = Except.ok img_array ∧
      pyGetIdx (lib.predict img_array) 0 = Except.ok p0 ∧
      npArgmax p0 = Except.ok i ∧ npMax p0 = Except.ok conf ∧
      p0.get? i = some conf ∧
      (∀ k v, p0.get? k = some v → v ≤ conf) ∧
      (∀ j, j < i → ∀ v, p0.get? j = some v → v < conf) ∧
      pyGetIdx class_labels i = Except.ok pred := by
  obtain ⟨data, image_data, img_array, p0, i, hd, hi, hp, h0, hA, hM, hL⟩ :=
    detectBody_ok_inv h
  rcases p0 with _ | ⟨x, xs⟩
  · cases hA
  · have hieq : i = idxOfMax (maxD x xs) (x :: xs) := (Except.ok.inj hA).symm
    have hceq : maxD x xs = conf := Except.ok.inj hM
    subst hieq
    subst hceq
    have hmem : maxD x xs ∈ x :: xs := maxD_mem_cons x xs
    refine ⟨data, image_data, img_array, x :: xs, _, hd, hi, hp, h0, hA, hM,
      get_idxOfMax hmem, ?_, ?_, hL⟩
    · intro k v hv
      exact le_maxD_cons (List.get?_mem hv)
    · intro j hj v hv
      exact lt_of_le_of_ne (le_maxD_cons (List.get?_mem hv)) (get_lt_idxOfMax hj hv)

/-- C4 witness: on the concrete run the forward pass on the
preprocessed tensor yields [1, 0], the argmax index is 0, and the
confidence equals the entry at index 0. -/
theorem detect_argmax_confidence_witness :
    ∃ data image_data img_array p0 i,
      getJson (ReqBody.json (Json.obj [("image", Json.str "payload")])) =
        Except.ok data ∧
      jsonGetItem data "image" = Except.ok image_data ∧
      preprocess libCx image_data = Except.ok img_array ∧
      pyGetIdx (libCx.predict img_array) 0 = Except.ok p0 ∧
      npArgmax p0 = Except.ok i ∧ npMax p0 = Except.ok 1 ∧
      p0.get? i = some 1 ∧
      (∀ k v, p0.get? k = some v → v ≤ 1) ∧
      (∀ j, j < i → ∀ v, p0.get? j = some v → v < 1) ∧
      pyGetIdx class_labels i = Except.ok "mask" :=
  detect_argmax_confidence libCx (.json (.obj [("image", Json.str "payload")]))
    "mask" 1 (by rfl)

/-! ### C3 -/

/-- Composing the float conversion and the division by 255: one map
over the pixel grid. -/
theorem tensorDiv_img_to_array (img : PILImage) :
    tensorDiv (img_to_array img) 255 =
      img.px.map (fun row => row.map (fun p => p.map (fun (v : ℕ) => (v : ℚ) / 255))) := by
  simp [tensorDiv, img_to_array, List.map_map, Function.comp]

/-- C3: on a valid base64 image, preprocessing performs exactly the
steps base64-decode, image decode, RGB conversion, direct resize to
224x224, float conversion, division by 255.0 and batch expansion, in
that order, and nothing else: the result is the resized RGB image's
pixel grid with each 8-bit value divided by 255.0, of shape
(1, 224, 224, 3), every value an exact pixel-over-255 quotient lying
in [0,1] (in particular no per-channel mean subtraction). -/
theorem preprocess_pipeline (lib : Lib) (s : String) (bs : Bytes) (img0 : PILImage)
    (hb64 : lib.b64decode s = Except.ok bs)
    (hopen : lib.imageOpen bs = Except.ok img0)
    (hshape : isGrid3 (lib.resize (lib.convert img0 "RGB") 224 224).px 224 224 3)
    (hrange : ∀ row ∈ (lib.resize (lib.convert img0 "RGB") 224 224).px,
      ∀ p ∈ row, ∀ v ∈ p, v ≤ 255) :
    preprocess lib (Json.str s) =
      Except.ok (npExpandDims0 (tensorDiv (img_to_array
        (lib.resize (lib.convert img0 "RGB") 224 224)) 255)) ∧
    ∀ t, preprocess lib (Json.str s) = Except.ok t →
      t.length = 1 ∧
      ∀ b ∈ t, isGridQ b 224 224 3 ∧
        ∀ row ∈ b, ∀ p ∈ row, ∀ v ∈ p,
          (∃ n : Nat, n ≤ 255 ∧ v = (n : ℚ) / 255) ∧ 0 ≤ v ∧ v ≤ 1 := by
  have heq : preprocess lib (Json.str s) =
      Except.ok (npExpandDims0 (tensorDiv (img_to_array
        (lib.resize (lib.convert img0 "RGB") 224 224)) 255)) := by
    simp [preprocess, b64decodeJson, hb64, hopen, except_bind_ok]
  refine ⟨heq, ?_⟩
  intro t ht
  rw [heq] at ht
  have ht2 : t = npExpandDims0 (tensorDiv (img_to_array
      (lib.resize (lib.convert img0 "RGB") 224 224)) 255) := (Except.ok.inj ht).symm
  subst ht2
  refine ⟨rfl, ?_⟩
  intro b hb
  have hbA : b = tensorDiv (img_to_array
      (lib.resize (lib.convert img0 "RGB") 224 224)) 255 := by
    simpa [npExpandDims0] using hb
  subst hbA
  obtain ⟨hlen, hrows⟩ := hshape
  rw [tensorDiv_img_to_array]
  constructor
  · refine ⟨by rw [List.length_map]; exact hlen, ?_⟩
    intro row hrow
    rw [List.mem_map] at hrow
    obtain ⟨row0, hrow0, rfl⟩ := hrow
    obtain ⟨hw, hps⟩ := hrows row0 hrow0
    refine ⟨by rw [List.length_map]; exact hw, ?_⟩
    intro p hp
    rw [List.mem_map] at hp
    obtain ⟨p0, hp0, rfl⟩ := hp
    rw [List.length_map]
    exact hps p0 hp0
  · intro row hrow p hp v hv
    rw [List.mem_map] at hrow
    obtain ⟨row0, hrow0, rfl⟩ := hrow
    rw [List.mem_map] at hp
    obtain ⟨p0, hp0, rfl⟩ := hp
    rw [List.mem_map] at hv
    obtain ⟨n, hn, rfl⟩ := hv
    have hn255 : n ≤ 255 := hrange row0 hrow0 p0 hp0 n hn
    refine ⟨⟨n, hn255, rfl⟩, ?_, ?_⟩
    · positivity
    · rw [div_le_one (by norm_num)]
      exact_mod_cast hn255

/-- C3 witness: the concrete library's resized image is the constant
224x224x3 grid of value 120, and every hypothesis holds for it. -/
theorem preprocess_pipeline_witness :
    preprocess libCx (Json.str "payload") =
      Except.ok (npExpandDims0 (tensorDiv (img_to_array
        (libCx.resize (libCx.convert imgCx "RGB") 224 224)) 255)) ∧
    ∀ t, preprocess libCx (Json.str "payload") = Except.ok t →
      t.length = 1 ∧
      ∀ b ∈ t, isGridQ b 224 224 3 ∧
        ∀ row ∈ b, ∀ p ∈ row, ∀ v ∈ p,
          (∃ n : Nat, n ≤ 255 ∧ v = (n : ℚ) / 255) ∧ 0 ≤ v ∧ v ≤ 1 :=
  preprocess_pipeline libCx "payload" [10, 20] imgCx (by rfl) (by rfl)
    (by refine ⟨List.length_replicate 224 _, ?_⟩
        intro row hrow
        rw [List.eq_of_mem_replicate hrow]
        refine ⟨List.length_replicate 224 _, ?_⟩
        intro p hp
        rw [List.eq_of_mem_replicate hp]
        exact List.length_replicate 3 _)
    (by intro row hrow p hp v hv
        rw [List.eq_of_mem_replicate hrow] at hp
        rw [List.eq_of_mem_replicate hp] at hv
        rw [List.eq_of_mem_replicate hv]
        decide)

/-! ### C8 -/

/-- A sequence of preprocessing calls, one result per input, in call
order. -/
def preprocessRuns (lib : Lib) (inputs : List Json) : List (Except String Tensor4) :=
  inputs.map (preprocess lib)

/-- C8: preprocessing is deterministic and history-independent: a run
on input `s` yields the same normalized tensor (or the same error)
whatever sequences of prior calls preceded it in either run. -/
theorem preprocess_deterministic (lib : Lib) (hist1 hist2 : List Json) (s : Json) :
    (preprocessRuns lib (hist1 ++ [s])).getLast? =
      (preprocessRuns lib (hist2 ++ [s])).getLast? := by
  simp [preprocessRuns, List.getLast?_concat]

/-! ### Values written by one successful generator run -/

/-- The RSA key one run generates (2048-bit, public exponent 65537). -/
def freshKey (env : GenEnv) : RSAKey :=
  { keyId := env.keyId, publicExponent := 65537, keySize := 2048 }

/-- The hardcoded subject (= issuer) name. -/
def appSubject : X509Name :=
  { country := "US", stateOrProvince := "California",
    locality := "San Francisco", organization := "My Company",
    commonName := "localhost" }

/-- The certificate one successful run builds and signs. -/
def freshCert (env : GenEnv) : Cert :=
  { subject := appSubject, issuer := appSubject, publicKeyOf := freshKey env,
    serialNumber := env.serial, notValidBefore := env.t1,
    notValidAfter := env.t2 + days365, sanDNS := ["localhost"],
    signatureHash := "SHA256", signingKey := freshKey env }

/-- A fully successful generator run writes exactly the fresh key file
then the fresh certificate file, and raises nothing. -/
theorem generate_writes (env : GenEnv) (cert_file key_file : FPath) (fs : FS)
    (hw1 : env.keyWriteOk = true) (hs : env.signOk = true)
    (hw2 : env.certWriteOk = true) :
    generate_self_signed_cert env cert_file key_file fs =
      (none, fsWrite (fsWrite fs key_file
          (FileData.keyPem (freshKey env) "PEM" "TraditionalOpenSSL" false))
        cert_file (FileData.certPem (freshCert env))) := by
  simp [generate_self_signed_cert, hw1, hs, hw2, freshKey, freshCert, appSubject]

/-! ### C6 -/

/-- C6: when both `cert.pem` and `key.pem` already exist at startup,
provisioning is a no-op: the generator does not run and the filesystem
is returned unchanged — nothing is written, overwritten or modified. -/
theorem ensure_certificate_noop (env : GenEnv) (fs : FS)
    (hc : fsExists fs "cert.pem" = true) (hk : fsExists fs "key.pem" = true) :
    ensure_certificate env fs = (none, fs) := by
  simp [ensure_certificate, hc, hk]

/-- A filesystem that already holds both PEM files. -/
def fsBoth : FS :=
  [("cert.pem", FileData.raw "old cert"), ("key.pem", FileData.raw "old key")]

/-- C6 witness: with both files on disk, provisioning returns the
filesystem unchanged. -/
theorem ensure_certificate_noop_witness :
    ensure_certificate
      { keyId := 9, serial := 3, t1 := 50, t2 := 50,
        keyWriteOk := true, signOk := true, certWriteOk := true } fsBoth =
      (none, fsBoth) :=
  ensure_certificate_noop _ fsBoth (by rfl) (by rfl)

/-! ### C7 -/

/-- A run in which the clock advances by one second between the
`datetime.utcnow()` call for `not_valid_before` and the one for
`not_valid_after`. -/
def envTick : GenEnv :=
  { keyId := 1, serial := 5, t1 := 100, t2 := 101,
    keyWriteOk := true, signOk := true, certWriteOk := true }

/-- C7 counterexample: the source calls `datetime.utcnow()` twice
(lines 60-61), so when the clock ticks between the two calls the
certificate's validity period is strictly more than 365 days:
provisioning from an empty disk under `envTick` yields a certificate
with `not_valid_after - not_valid_before = days365 + 1`. -/
theorem cert_validity_not_exactly_365_days :
    ∃ c : Cert,
      fsRead (ensure_certificate envTick []).2 "cert.pem" =
        some (FileData.certPem c) ∧
      c.notValidBefore = 100 ∧ c.notValidAfter = 101 + days365 ∧
      c.notValidAfter - c.notValidBefore ≠ days365 := by
  refine ⟨freshCert envTick, ?_, rfl, rfl, ?_⟩
  · rw [ensure_certificate]
    rfl
  · decide

/-- C7 (amended): when neither file exists and every external step
succeeds, provisioning writes an unencrypted PEM TraditionalOpenSSL
private key and a SHA-256-signed self-issued certificate with common
name "localhost" and SAN DNS "localhost", whose validity runs from the
first clock reading to the second clock reading plus 365 days — that
is, 365 days plus the delay between the two readings, and exactly 365
days when the two readings coincide. -/
theorem ensure_certificate_cert_contents (env : GenEnv) (fs : FS)
    (hc : fsExists fs "cert.pem" = false) (hk : fsExists fs "key.pem" = false)
    (hmono : env.t1 ≤ env.t2)
    (hw1 : env.keyWriteOk = true) (hs : env.signOk = true)
    (hw2 : env.certWriteOk = true) :
    ∃ k c,
      fsRead (ensure_certificate env fs).2 "key.pem" =
        some (FileData.keyPem k "PEM" "TraditionalOpenSSL" false) ∧
      fsRead (ensure_certificate env fs).2 "cert.pem" =
        some (FileData.certPem c) ∧
      (ensure_certificate env fs).1 = none ∧
      k.publicExponent = 65537 ∧ k.keySize = 2048 ∧
      c.subject.commonName = "localhost" ∧ c.issuer = c.subject ∧
      c.sanDNS = ["localhost"] ∧ c.signatureHash = "SHA256" ∧
      c.publicKeyOf = k ∧ c.signingKey = k ∧
      c.notValidBefore = env.t1 ∧ c.notValidAfter = env.t2 + days365 ∧
      c.notValidAfter - c.notValidBefore = days365 + (env.t2 - env.t1) ∧
      (env.t2 = env.t1 → c.notValidAfter - c.notValidBefore = days365) := by
  have hcond : (!fsExists fs "cert.pem" || !fsExists fs "key.pem") = true := by
    rw [hc]; rfl
  have hgen := generate_writes env "cert.pem" "key.pem" fs hw1 hs hw2
  refine ⟨freshKey env, freshCert env, ?_, ?_, ?_, rfl, rfl, rfl, rfl, rfl, rfl,
    rfl, rfl, rfl, rfl, ?_, ?_⟩
  · rw [ensure_certificate, if_pos hcond, hgen]
    simp [fsRead, fsWrite, List.lookup]
  · rw [ensure_certificate, if_pos hcond, hgen]
    simp [fsRead, fsWrite, List.lookup]
  · rw [ensure_certificate, if_pos hcond, hgen]
  · show (env.t2 + days365) - env.t1 = days365 + (env.t2 - env.t1)
    omega
  · intro h2
    show (env.t2 + days365) - env.t1 = days365
    omega

/-- C7 witness: a run from an empty disk with both clock readings
equal to 1000 satisfies every hypothesis of the amended statement. -/
theorem ensure_certificate_cert_contents_witness :
    ∃ k c,
      fsRead (ensure_certificate
        { keyId := 2, serial := 7, t1 := 1000, t2 := 1000,
          keyWriteOk := true, signOk := true, certWriteOk := true } []).2 "key.pem" =
        some (FileData.keyPem k "PEM" "TraditionalOpenSSL" false) ∧
      fsRead (ensure_certificate
        { keyId := 2, serial := 7, t1 := 1000, t2 := 1000,
          keyWriteOk := true, signOk := true, certWriteOk := true } []).2 "cert.pem" =
        some (FileData.certPem c) ∧
      (ensure_certificate
        { keyId := 2, serial := 7, t1 := 1000, t2 := 1000,
          keyWriteOk := true, signOk := true, certWriteOk := true } []).1 = none ∧
      k.publicExponent = 65537 ∧ k.keySize = 2048 ∧
      c.subject.commonName = "localhost" ∧ c.issuer = c.subject ∧
      c.sanDNS = ["localhost"] ∧ c.signatureHash = "SHA256" ∧
      c.publicKeyOf = k ∧ c.signingKey = k ∧
      c.notValidBefore = 1000 ∧ c.notValidAfter = 1000 + days365 ∧
      c.notValidAfter - c.notValidBefore = days365 + (1000 - 1000) ∧
      (1000 = 1000 → c.notValidAfter - c.notValidBefore = days365) :=
  ensure_certificate_cert_contents _ [] (by rfl) (by rfl) (by decide)
    (by rfl) (by rfl) (by rfl)

/-! ### C9 -/

/-- C9: if exactly one of `cert.pem` and `key.pem` exists at startup,
the guard fires and the generator regenerates both files; the
surviving old file is overwritten with freshly generated content that
is a function of the run's environment alone (the old content is never
reused). -/
theorem ensure_certificate_regenerates_both (env : GenEnv) (fs : FS)
    (hone : fsExists fs "cert.pem" ≠ fsExists fs "key.pem")
    (hw1 : env.keyWriteOk = true) (hs : env.signOk = true)
    (hw2 : env.certWriteOk = true) :
    (ensure_certificate env fs).1 = none ∧
    (ensure_certificate env fs).2 =
      fsWrite (fsWrite fs "key.pem"
          (FileData.keyPem (freshKey env) "PEM" "TraditionalOpenSSL" false))
        "cert.pem" (FileData.certPem (freshCert env)) ∧
    fsRead (ensure_certificate env fs).2 "key.pem" =
      some (FileData.keyPem (freshKey env) "PEM" "TraditionalOpenSSL" false) ∧
    fsRead (ensure_certificate env fs).2 "cert.pem" =
      some (FileData.certPem (freshCert env)) := by
  have hcond : (!fsExists fs "cert.pem" || !fsExists fs "key.pem") = true := by
    cases hc : fsExists fs "cert.pem" <;> cases hk : fsExists fs "key.pem" <;>
      rw [hc, hk] at hone <;> simp at hone ⊢
  have hgen := generate_writes env "cert.pem" "key.pem" fs hw1 hs hw2
  rw [ensure_certificate, if_pos hcond, hgen]
  refine ⟨rfl, rfl, ?_, ?_⟩
  · simp [fsRead, fsWrite, List.lookup]
  · simp [fsRead, fsWrite, List.lookup]

/-- A filesystem holding only an old certificate, no key. -/
def fsCertOnly : FS := [("cert.pem", FileData.raw "orphaned cert")]

/-- C9 witness: with only `cert.pem` on disk, provisioning overwrites
it and creates `key.pem`, both with fresh content. -/
theorem ensure_certificate_regenerates_both_witness :
    (ensure_certificate
      { keyId := 4, serial := 11, t1 := 20, t2 := 20,
        keyWriteOk := true, signOk := true, certWriteOk := true } fsCertOnly).1 = none ∧
    (ensure_certificate
      { keyId := 4, serial := 11, t1 := 20, t2 := 20,
        keyWriteOk := true, signOk := true, certWriteOk := true } fsCertOnly).2 =
      fsWrite (fsWrite fsCertOnly "key.pem"
          (FileData.keyPem (freshKey
            { keyId := 4, serial := 11, t1 := 20, t2 := 20,
              keyWriteOk := true, signOk := true, certWriteOk := true })
            "PEM" "TraditionalOpenSSL" false))
        "cert.pem" (FileData.certPem (freshCert
          { keyId := 4, serial := 11, t1 := 20, t2 := 20,
            keyWriteOk := true, signOk := true, certWriteOk := true })) ∧
    fsRead (ensure_certificate
      { keyId := 4, serial := 11, t1 := 20, t2 := 20,
        keyWriteOk := true, signOk := true, certWriteOk := true } fsCertOnly).2 "key.pem" =
      some (FileData.keyPem (freshKey
        { keyId := 4, serial := 11, t1 := 20, t2 := 20,
          keyWriteOk := true, signOk := true, certWriteOk := true })
        "PEM" "TraditionalOpenSSL" false) ∧
    fsRead (ensure_certificate
      { keyId := 4, serial := 11, t1 := 20, t2 := 20,
        keyWriteOk := true, signOk := true, certWriteOk := true } fsCertOnly).2 "cert.pem" =
      some (FileData.certPem (freshCert
        { keyId := 4, serial := 11, t1 := 20, t2 := 20,
          keyWriteOk := true, signOk := true, certWriteOk := true })) :=
  ensure_certificate_regenerates_both _ fsCertOnly (by decide) (by rfl) (by rfl) (by rfl)

/-! ### C10 -/

/-- C10: provisioning is not atomic: the key file is written before
the certificate is built, signed and written, so when the build/sign
step or the certificate write fails after a successful key write, the
exception propagates while the key file is already on disk and the
certificate file still does not exist — nothing is rolled back. -/
theorem generate_cert_not_atomic (env : GenEnv) (fs : FS)
    (hw1 : env.keyWriteOk = true)
    (hfail : env.signOk = false ∨ env.certWriteOk = false)
    (hc : fsExists fs "cert.pem" = false) :
    ∃ e, generate_self_signed_cert env "cert.pem" "key.pem" fs =
        (some e, fsWrite fs "key.pem"
          (FileData.keyPem (freshKey env) "PEM" "TraditionalOpenSSL" false)) ∧
      fsExists (generate_self_signed_cert env "cert.pem" "key.pem" fs).2
        "key.pem" = true ∧
      fsExists (generate_self_signed_cert env "cert.pem" "key.pem" fs).2
        "cert.pem" = false := by
  have hstate : ∃ e, generate_self_signed_cert env "cert.pem" "key.pem" fs =
      (some e, fsWrite fs "key.pem"
        (FileData.keyPem (freshKey env) "PEM" "TraditionalOpenSSL" false)) := by
    cases hsign : env.signOk with
    | false =>
        refine ⟨"building or signing the certificate failed", ?_⟩
        simp [generate_self_signed_cert, hw1, hsign, freshKey]
    | true =>
        have hwc : env.certWriteOk = false := by
          rcases hfail with h | h
          · rw [h] at hsign; cases hsign
          · exact h
        refine ⟨"OSError: cert write failed", ?_⟩
        simp [generate_self_signed_cert, hw1, hsign, hwc, freshKey]
  obtain ⟨e, he⟩ := hstate
  refine ⟨e, he, ?_, ?_⟩
  · rw [he]
    simp [fsExists, fsWrite, List.lookup]
  · rw [he]
    simpa [fsExists, fsWrite, List.lookup] using hc

/-- C10 witness: from an empty disk, a run whose signing step fails
leaves the key file on disk and no certificate file. -/
theorem generate_cert_not_atomic_witness :
    ∃ e, generate_self_signed_cert
        { keyId := 6, serial := 13, t1 := 30, t2 := 30,
          keyWriteOk := true, signOk := false, certWriteOk := true }
        "cert.pem" "key.pem" [] =
        (some e, fsWrite [] "key.pem"
          (FileData.keyPem (freshKey
            { keyId := 6, serial := 13, t1 := 30, t2 := 30,
              keyWriteOk := true, signOk := false, certWriteOk := true })
            "PEM" "TraditionalOpenSSL" false)) ∧
      fsExists (generate_self_signed_cert
        { keyId := 6, serial := 13, t1 := 30, t2 := 30,
          keyWriteOk := true, signOk := false, certWriteOk := true }
        "cert.pem" "key.pem" []).2 "key.pem" = true ∧
      fsExists (generate_self_signed_cert
        { keyId := 6, serial := 13, t1 := 30, t2 := 30,
          keyWriteOk := true, signOk := false, certWriteOk := true }
        "cert.pem" "key.pem" []).2 "cert.pem" = false :=
  generate_cert_not_atomic _ [] (by rfl) (Or.inl (by rfl)) (by rfl)
